import Mathlib

/-!
Verification of the DICOM scout-modulation visualizer and CT-Expo
preprocessor against their specification.

The two Python source files are shallowly embedded below:
`dicom_scout_modulation_visualizer.py` (record classification, exposure
profile extraction, scout geometry, plot extent) and
`dicom_ct_expo_preprocessor.py` (batch attribute collection).

Modelling choices:
- Python floats are modelled by rationals (`ℚ`); the programs only use
  field arithmetic on values read from files, no float-specific behavior
  is relied on by any claim.
- A `pydicom.dataset.FileDataset` is a bag of optional named attributes;
  attribute access `ds.X` raising `AttributeError` when `X` is absent is
  modelled by `Except` with a `DicomError.missingField` error, and
  Python's `ZeroDivisionError` by `DicomError.zeroDivision`.
- `sorted(data, key=lambda x: x[0])` is Python's stable ascending sort;
  it is modelled by a stable insertion sort (`sortAsc`), whose
  permutation, sortedness and stability properties are proved below.
-/

namespace DICOM

/-- Errors raised by the visualizer pipeline: `missingField f` models a
Python `AttributeError` on attribute `f` (the spec's `MissingFieldError`),
`zeroDivision` models Python's `ZeroDivisionError`. -/
inductive DicomError where
  | missingField (field : String)
  | zeroDivision
deriving DecidableEq, Repr

/-- A DICOM dataset as read by `pydicom.dcmread`: the bag of named
attributes used by the visualizer. Absent attributes are `none`.
`imagePositionZ` is `ImagePositionPatient[2]`; `pixelSpacingCol` is
`PixelSpacing[1]`. -/
structure FileDataset where
  seriesDescription : Option String
  sliceThickness : Option ℚ
  spacingBetweenSlices : Option ℚ
  imagePositionZ : Option ℚ
  xRayTubeCurrent : Option ℚ
  revolutionTime : Option ℚ
  rows : Option ℕ
  pixelSpacingCol : Option ℚ
deriving DecidableEq, Repr

/-- Attribute access `ds.X`: the value when present, an `AttributeError`
(`missingField`) when absent. -/
def req (field : String) : Option α → Except DicomError α
  | some v => .ok v
  | none => .error (.missingField field)

/-- Python's `str.lower`, character by character (the marker phrases and
filenames involved are ASCII). -/
def lowerStr (s : String) : String := ⟨s.data.map Char.toLower⟩

/-- `needle` is a prefix of `hay` (character lists). -/
def isPrefL : List Char → List Char → Bool
  | [], _ => true
  | _ :: _, [] => false
  | c :: cs, d :: ds => c == d && isPrefL cs ds

/-- Python's substring test `needle in hay` (character lists). -/
def containsSub (needle : List Char) : List Char → Bool
  | [] => isPrefL needle []
  | d :: ds => isPrefL needle (d :: ds) || containsSub needle ds

/-- `needle` is a suffix of `hay` (character lists). -/
def isSuffL (needle hay : List Char) : Bool :=
  isPrefL needle.reverse hay.reverse

/-- `is_scout` from `dicom_scout_modulation_visualizer.py`: lowercases
`SeriesDescription` and tests the two marker substrings; an absent
`SeriesDescription` (AttributeError) yields `false`. -/
def is_scout (ds : FileDataset) : Bool :=
  match ds.seriesDescription with
  | none => false
  | some sd =>
      let series_description := lowerStr sd
      containsSub "scout face".data series_description.data
        || containsSub "profil".data series_description.data

/-- The loop body of `extract_dicom_data`, with the `current_position`
accumulator threaded explicitly (`none` models Python's initial `None`).
Scout records are skipped; for each slice the attributes are read in
source order (`SliceThickness`, `SpacingBetweenSlices` with default,
position, `XRayTubeCurrent`, `RevolutionTime`); a missing required
attribute aborts the whole run. -/
def extractGo : Option ℚ → List FileDataset → Except DicomError (List (ℚ × ℚ))
  | _, [] => .ok []
  | cur, ds :: rest =>
    if is_scout ds then extractGo cur rest
    else do
      let slice_thickness ← req "SliceThickness" ds.sliceThickness
      let _spacing_between_slices := ds.spacingBetweenSlices.getD slice_thickness
      let current_position ←
        match cur with
        | none => req "ImagePositionPatient" ds.imagePositionZ
        | some p => .ok (p - slice_thickness)
      let tubeCurrent ← req "XRayTubeCurrent" ds.xRayTubeCurrent
      let revolutionTime ← req "RevolutionTime" ds.revolutionTime
      let mAs := tubeCurrent * revolutionTime
      let tail ← extractGo (some current_position) rest
      .ok ((current_position, mAs) :: tail)

/-- The `data` list accumulated by `extract_dicom_data` before the final
`sorted(...)[::-1]`. -/
def extract_dicom_data_unsorted (dicom_files : List FileDataset) :
    Except DicomError (List (ℚ × ℚ)) :=
  extractGo none dicom_files

/-- Insert a pair into a list, before the first element whose position
key is not smaller. `foldr insertAsc []` is a stable ascending sort,
modelling Python's `sorted(data, key=lambda x: x[0])`. -/
def insertAsc (x : ℚ × ℚ) : List (ℚ × ℚ) → List (ℚ × ℚ)
  | [] => [x]
  | y :: ys => if x.1 ≤ y.1 then x :: y :: ys else y :: insertAsc x ys

/-- Stable ascending sort by position key: Python's
`sorted(data, key=lambda x: x[0])`. -/
def sortAsc (l : List (ℚ × ℚ)) : List (ℚ × ℚ) := l.foldr insertAsc []

/-- `extract_dicom_data` from the source: accumulate `(position, mAs)`
pairs, sort ascending by position, then reverse (`[::-1]`). -/
def extract_dicom_data (dicom_files : List FileDataset) :
    Except DicomError (List (ℚ × ℚ)) := do
  let data ← extractGo none dicom_files
  .ok ((sortAsc data).reverse)

/-- `calculate_scout_positions` from the source: reads `SliceThickness`,
`ImagePositionPatient[2]` and `Rows` in source order and returns
`(z_start, z_end, z_spacing_corrected)`; `Rows = 0` makes the division
raise `ZeroDivisionError`. -/
def calculate_scout_positions (scout_ds : FileDataset) :
    Except DicomError (ℚ × ℚ × ℚ) := do
  let scout_length ← req "SliceThickness" scout_ds.sliceThickness
  let z_start ← req "ImagePositionPatient" scout_ds.imagePositionZ
  let z_end := z_start - scout_length
  let rows ← req "Rows" scout_ds.rows
  if rows = 0 then .error .zeroDivision
  else .ok (z_start, z_end, scout_length / (rows : ℚ))

/-- The axis extent `[z_start, z_end, 0, cols * x_spacing]` computed by
`plot_scoutview_with_modulation` for `plt.imshow` of the rotated scout
image; `cols` is `scoutview.shape[1]` and `x_spacing` is
`PixelSpacing[1]`. The plotting side effects are out of scope; this is
the geometry the overlay is placed on. -/
def plot_scout_extent (cols : ℕ) (scout_ds : FileDataset) :
    Except DicomError (ℚ × ℚ × ℚ × ℚ) := do
  let g ← calculate_scout_positions scout_ds
  let x_spacing ← req "PixelSpacing" scout_ds.pixelSpacingCol
  .ok (g.1, g.2.1, 0, (cols : ℚ) * x_spacing)

/-! Embedding of `dicom_ct_expo_preprocessor.py`. -/

/-- The attribute bag read by the batch collector via
`dicom_data.get(field, 'Unknown')`: every field optional, stringified. -/
structure CTRecord where
  patientID : Option String
  studyDate : Option String
  modality : Option String
  kvp : Option String
  xRayTubeCurrent : Option String
  exposureTime : Option String
  sliceThickness : Option String
  manufacturer : Option String
deriving DecidableEq, Repr

/-- One file found while walking the directory tree: its name and the
outcome of attempting `pydicom.dcmread` on it (`Except.error` models any
exception during the read, the spec's `ReadError`). -/
structure DicomFile where
  name : String
  content : Except String CTRecord
deriving Repr

/-- `is_dicom_file` from the source: case-insensitive `.dcm` extension
test. -/
def is_dicom_file (filename : String) : Bool :=
  isSuffL ".dcm".data (lowerStr filename).data

/-- The row of 8 stringified attributes appended per successfully read
file, absent fields defaulting to the literal `Unknown`. -/
structure DicomInfo where
  patientID : String
  studyDate : String
  modality : String
  kvp : String
  xRayTubeCurrent : String
  exposureTime : String
  sliceThickness : String
  manufacturer : String
deriving DecidableEq, Repr

/-- Build one `dicom_info` row from a successfully read dataset. -/
def mkRow (d : CTRecord) : DicomInfo :=
  { patientID := d.patientID.getD "Unknown"
    studyDate := d.studyDate.getD "Unknown"
    modality := d.modality.getD "Unknown"
    kvp := d.kvp.getD "Unknown"
    xRayTubeCurrent := d.xRayTubeCurrent.getD "Unknown"
    exposureTime := d.exposureTime.getD "Unknown"
    sliceThickness := d.sliceThickness.getD "Unknown"
    manufacturer := d.manufacturer.getD "Unknown" }

/-- The collection loop of `extract_dicom_info`: skip files whose name
fails the extension test, append a row per successful read, catch and
skip failed reads. -/
def collectRows : List DicomFile → List DicomInfo
  | [] => []
  | f :: fs =>
    if is_dicom_file f.name then
      match f.content with
      | .ok d => mkRow d :: collectRows fs
      | .error _ => collectRows fs
    else collectRows fs

/-- `extract_dicom_info` from the source, with directory traversal
abstracted to the list of files found: `some rows` models writing the
CSV with those data rows, `none` models the "No valid DICOM files were
found. CSV file not created." branch. -/
def extract_dicom_info (files : List DicomFile) : Option (List DicomInfo) :=
  let dicom_info_list := collectRows files
  if dicom_info_list.isEmpty then none else some dicom_info_list

/-- Whether a file's read succeeded (no `ReadError`). -/
def readOk (f : DicomFile) : Bool :=
  match f.content with
  | .ok _ => true
  | .error _ => false

/-- The cumulative position sequence of the spec:
`Z0, Z0 - t1, Z0 - t1 - t2, ...` for the tail thickness list. -/
def cumulPositions : ℚ → List ℚ → List ℚ
  | z, [] => [z]
  | z, t :: ts => z :: cumulPositions (z - t) ts

/-- Stable descending insertion (spec-side): insert before the first
element whose position key is not larger. `foldr insertDesc []` is the
spec's "sorted descending by position, ties broken by preserving
relative input order". -/
def insertDesc (x : ℚ × ℚ) : List (ℚ × ℚ) → List (ℚ × ℚ)
  | [] => [x]
  | y :: ys => if y.1 ≤ x.1 then x :: y :: ys else y :: insertDesc x ys

/-- Spec-side stable descending sort by position, ties in input order. -/
def sortDescStable (l : List (ℚ × ℚ)) : List (ℚ × ℚ) := l.foldr insertDesc []

instance {ε α : Type} [DecidableEq ε] [DecidableEq α] : DecidableEq (Except ε α) :=
  fun x y =>
  match x, y with
  | .ok a, .ok b =>
    if h : a = b then .isTrue (by rw [h]) else .isFalse (fun hc => h (Except.ok.inj hc))
  | .error a, .error b =>
    if h : a = b then .isTrue (by rw [h]) else .isFalse (fun hc => h (Except.error.inj hc))
  | .ok _, .error _ => .isFalse (fun hc => Except.noConfusion hc)
  | .error _, .ok _ => .isFalse (fun hc => Except.noConfusion hc)

/-- Replace a dataset's `SpacingBetweenSlices` attribute, leaving every
other attribute unchanged (used to state that the builder never uses it). -/
def setSpacing (sp : Option ℚ) (r : FileDataset) : FileDataset :=
  { r with spacingBetweenSlices := sp }

/-- Whether a pipeline result is a `MissingFieldError` (an
`AttributeError` in the source). -/
def isMissingField : Except DicomError α → Bool
  | .error (.missingField _) => true
  | _ => false

/-! Concrete datasets used to witness the theorems below. -/

/-- A dataset with every attribute absent. -/
def emptyDS : FileDataset := ⟨none, none, none, none, none, none, none, none⟩

/-- First slice of the spec's end-to-end scenario 1: thickness 2 mm,
`ImagePositionPatient[2] = 100`, tube current 200 mA, revolution time
0.5 s. -/
def demoFirstSlice : FileDataset :=
  { emptyDS with
    sliceThickness := some 2
    imagePositionZ := some 100
    xRayTubeCurrent := some 200
    revolutionTime := some (1 / 2) }

/-- Subsequent slice of scenario 1 (no position of its own). -/
def demoNextSlice : FileDataset :=
  { emptyDS with
    sliceThickness := some 2
    xRayTubeCurrent := some 200
    revolutionTime := some (1 / 2) }

/-- Tie-breaking probe, first slice: position 5, exposure 2. -/
def demoTieA : FileDataset :=
  { emptyDS with
    sliceThickness := some 1
    imagePositionZ := some 5
    xRayTubeCurrent := some 2
    revolutionTime := some 1 }

/-- Tie-breaking probe, second slice: thickness 0 keeps the position at
5; exposure 3. -/
def demoTieB : FileDataset :=
  { emptyDS with
    sliceThickness := some 0
    xRayTubeCurrent := some 3
    revolutionTime := some 1 }

/-- A slice with `SliceThickness` absent. -/
def demoNoThickness : FileDataset :=
  { emptyDS with
    imagePositionZ := some 10
    xRayTubeCurrent := some 100
    revolutionTime := some 1 }

/-- The spec's end-to-end scenario 2 scout: thickness 400,
`ImagePositionPatient[2] = 50`, 200 rows, column pixel spacing 1. -/
def demoScout : FileDataset :=
  { emptyDS with
    seriesDescription := some "Scout FACE ap"
    sliceThickness := some 400
    imagePositionZ := some 50
    rows := some 200
    pixelSpacingCol := some 1 }

/-- Same scout but with `Rows = 0`. -/
def demoScoutRows0 : FileDataset := { demoScout with rows := some 0 }

/-- Same scout but with `Rows` absent. -/
def demoScoutNoRows : FileDataset := { demoScout with rows := none }

/-- Same scout with the series description differing only in case. -/
def demoScoutOtherCase : FileDataset :=
  { demoScout with seriesDescription := some "sCOUT face AP" }

/-- A batch-collector file that reads successfully. -/
def demoFileOk : DicomFile :=
  ⟨"a.dcm", .ok ⟨some "P1", none, none, none, none, none, none, none⟩⟩

/-- A batch-collector file whose read raises (a `ReadError`). -/
def demoFileBad : DicomFile := ⟨"b.dcm", .error "corrupt"⟩

/-- A file filtered out by the `.dcm` extension test. -/
def demoFileTxt : DicomFile :=
  ⟨"c.txt", .ok ⟨none, none, none, none, none, none, none, none⟩⟩

end DICOM

namespace DICOM

/-! Helper lemmas about the profile builder loop. -/

lemma extractGo_cons_scout {ds : FileDataset} {rest : List FileDataset} {cur : Option ℚ}
    (hs : is_scout ds = true) : extractGo cur (ds :: rest) = extractGo cur rest := by
  simp [extractGo, hs]

lemma extractGo_cons_slice_ok {ds : FileDataset} {rest : List FileDataset}
    {cur : Option ℚ} {data : List (ℚ × ℚ)} (hs : is_scout ds = false)
    (h : extractGo cur (ds :: rest) = .ok data) :
    ∃ t c rt z tail, ds.sliceThickness = some t ∧ ds.xRayTubeCurrent = some c ∧
      ds.revolutionTime = some rt ∧
      (match cur with
       | none => ds.imagePositionZ = some z
       | some p => z = p - t) ∧
      extractGo (some z) rest = .ok tail ∧ data = (z, c * rt) :: tail := by
  rcases ht : ds.sliceThickness with _ | t
  · simp [extractGo, hs, req, ht, Bind.bind, Except.bind] at h
  rcases cur with _ | p
  · rcases hz : ds.imagePositionZ with _ | z
    · simp [extractGo, hs, req, ht, hz, Bind.bind, Except.bind] at h
    rcases hc : ds.xRayTubeCurrent with _ | c
    · simp [extractGo, hs, req, ht, hz, hc, Bind.bind, Except.bind] at h
    rcases hrt : ds.revolutionTime with _ | rt
    · simp [extractGo, hs, req, ht, hz, hc, hrt, Bind.bind, Except.bind] at h
    rcases hrec : extractGo (some z) rest with e | tail
    · simp [extractGo, hs, req, ht, hz, hc, hrt, hrec, Bind.bind, Except.bind] at h
    · simp [extractGo, hs, req, ht, hz, hc, hrt, hrec, Bind.bind, Except.bind] at h
      exact ⟨t, c, rt, z, tail, rfl, rfl, rfl, rfl, hrec, h.symm⟩
  · rcases hc : ds.xRayTubeCurrent with _ | c
    · simp [extractGo, hs, req, ht, hc, Bind.bind, Except.bind] at h
    rcases hrt : ds.revolutionTime with _ | rt
    · simp [extractGo, hs, req, ht, hc, hrt, Bind.bind, Except.bind] at h
    rcases hrec : extractGo (some (p - t)) rest with e | tail
    · simp [extractGo, hs, req, ht, hc, hrt, hrec, Bind.bind, Except.bind] at h
    · simp [extractGo, hs, req, ht, hc, hrt, hrec, Bind.bind, Except.bind] at h
      exact ⟨t, c, rt, p - t, tail, rfl, rfl, rfl, rfl, hrec, h.symm⟩

lemma extract_dicom_data_eq {files : List FileDataset} {data : List (ℚ × ℚ)}
    (h : extractGo none files = .ok data) :
    extract_dicom_data files = .ok ((sortAsc data).reverse) := by
  simp [extract_dicom_data, h, Bind.bind, Except.bind]

lemma extract_dicom_data_error {files : List FileDataset} {e : DicomError}
    (h : extractGo none files = .error e) :
    extract_dicom_data files = .error e := by
  simp [extract_dicom_data, h, Bind.bind, Except.bind]

lemma extractGo_error_missingField :
    ∀ (files : List FileDataset) (cur : Option ℚ) (e : DicomError),
      extractGo cur files = .error e → ∃ f, e = .missingField f := by
  intro files
  induction files with
  | nil => intro cur e h; simp [extractGo] at h
  | cons ds rest ih =>
    intro cur e h
    by_cases hs : is_scout ds
    · rw [extractGo_cons_scout hs] at h
      exact ih cur e h
    · rw [Bool.not_eq_true] at hs
      rcases ht : ds.sliceThickness with _ | t
      · simp [extractGo, hs, req, ht, Bind.bind, Except.bind] at h
        exact ⟨"SliceThickness", h.symm⟩
      rcases cur with _ | p
      · rcases hz : ds.imagePositionZ with _ | z
        · simp [extractGo, hs, req, ht, hz, Bind.bind, Except.bind] at h
          exact ⟨"ImagePositionPatient", h.symm⟩
        rcases hc : ds.xRayTubeCurrent with _ | c
        · simp [extractGo, hs, req, ht, hz, hc, Bind.bind, Except.bind] at h
          exact ⟨"XRayTubeCurrent", h.symm⟩
        rcases hrt : ds.revolutionTime with _ | rt
        · simp [extractGo, hs, req, ht, hz, hc, hrt, Bind.bind, Except.bind] at h
          exact ⟨"RevolutionTime", h.symm⟩
        rcases hrec : extractGo (some z) rest with e' | tail
        · simp [extractGo, hs, req, ht, hz, hc, hrt, hrec, Bind.bind, Except.bind] at h
          obtain ⟨f, rfl⟩ := ih (some z) e' hrec
          exact ⟨f, h.symm⟩
        · simp [extractGo, hs, req, ht, hz, hc, hrt, hrec, Bind.bind, Except.bind] at h
      · rcases hc : ds.xRayTubeCurrent with _ | c
        · simp [extractGo, hs, req, ht, hc, Bind.bind, Except.bind] at h
          exact ⟨"XRayTubeCurrent", h.symm⟩
        rcases hrt : ds.revolutionTime with _ | rt
        · simp [extractGo, hs, req, ht, hc, hrt, Bind.bind, Except.bind] at h
          exact ⟨"RevolutionTime", h.symm⟩
        rcases hrec : extractGo (some (p - t)) rest with e' | tail
        · simp [extractGo, hs, req, ht, hc, hrt, hrec, Bind.bind, Except.bind] at h
          obtain ⟨f, rfl⟩ := ih (some (p - t)) e' hrec
          exact ⟨f, h.symm⟩
        · simp [extractGo, hs, req, ht, hc, hrt, hrec, Bind.bind, Except.bind] at h

lemma extractGo_ok_thickness :
    ∀ (files : List FileDataset) (cur : Option ℚ) (data : List (ℚ × ℚ)),
      extractGo cur files = .ok data →
      ∀ r ∈ files, is_scout r = false → ∃ t, r.sliceThickness = some t := by
  intro files
  induction files with
  | nil => intro cur data _ r hr; simp at hr
  | cons ds rest ih =>
    intro cur data h r hr hrs
    by_cases hs : is_scout ds
    · rw [extractGo_cons_scout hs] at h
      rcases List.mem_cons.mp hr with rfl | hr'
      · rw [hs] at hrs; cases hrs
      · exact ih cur data h r hr' hrs
    · rw [Bool.not_eq_true] at hs
      obtain ⟨t, c, rt, z, tail, ht, hc, hrt, hz, hrec, rfl⟩ := extractGo_cons_slice_ok hs h
      rcases List.mem_cons.mp hr with rfl | hr'
      · exact ⟨t, ht⟩
      · exact ih (some z) tail hrec r hr' hrs

lemma extractGo_some_positions :
    ∀ (rest : List FileDataset) (p : ℚ) (data : List (ℚ × ℚ)),
      (∀ r ∈ rest, is_scout r = false) →
      extractGo (some p) rest = .ok data →
      cumulPositions p (rest.map fun r => r.sliceThickness.getD 0) =
        p :: data.map Prod.fst := by
  intro rest
  induction rest with
  | nil =>
    intro p data _ h
    simp [extractGo] at h
    simp [← h, cumulPositions]
  | cons ds rest ih =>
    intro p data hall h
    have hs : is_scout ds = false := hall ds (List.mem_cons_self _ _)
    obtain ⟨t, c, rt, z, tail, ht, hc, hrt, hz, hrec, rfl⟩ := extractGo_cons_slice_ok hs h
    have hz' : z = p - t := hz
    subst hz'
    simp only [List.map_cons, ht, Option.getD_some, cumulPositions]
    rw [ih (p - t) tail (fun r hr => hall r (List.mem_cons_of_mem _ hr)) hrec]

lemma extractGo_all_scout :
    ∀ (files : List FileDataset) (cur : Option ℚ),
      (∀ r ∈ files, is_scout r = true) → extractGo cur files = .ok [] := by
  intro files
  induction files with
  | nil => intro cur _; rfl
  | cons ds rest ih =>
    intro cur hall
    rw [extractGo_cons_scout (hall ds (List.mem_cons_self _ _))]
    exact ih cur fun r hr => hall r (List.mem_cons_of_mem _ hr)

lemma extractGo_ok_snd :
    ∀ (files : List FileDataset) (cur : Option ℚ) (data : List (ℚ × ℚ)),
      extractGo cur files = .ok data →
      data.map Prod.snd = (files.filter fun r => !is_scout r).map
        (fun r => r.xRayTubeCurrent.getD 0 * r.revolutionTime.getD 0) := by
  intro files
  induction files with
  | nil => intro cur data h; simp [extractGo] at h; simp [← h]
  | cons ds rest ih =>
    intro cur data h
    by_cases hs : is_scout ds
    · rw [extractGo_cons_scout hs] at h
      simp [List.filter_cons, hs, ih cur data h]
    · rw [Bool.not_eq_true] at hs
      obtain ⟨t, c, rt, z, tail, ht, hc, hrt, hz, hrec, rfl⟩ := extractGo_cons_slice_ok hs h
      simp [List.filter_cons, hs, hc, hrt, ih (some z) tail hrec]

lemma extractGo_ok_length :
    ∀ (files : List FileDataset) (cur : Option ℚ) (data : List (ℚ × ℚ)),
      extractGo cur files = .ok data →
      data.length = files.countP (fun r => !is_scout r) := by
  intro files
  induction files with
  | nil => intro cur data h; simp [extractGo] at h; simp [← h]
  | cons ds rest ih =>
    intro cur data h
    by_cases hs : is_scout ds
    · rw [extractGo_cons_scout hs] at h
      simp [List.countP_cons, hs, ih cur data h]
    · rw [Bool.not_eq_true] at hs
      obtain ⟨t, c, rt, z, tail, ht, hc, hrt, hz, hrec, rfl⟩ := extractGo_cons_slice_ok hs h
      simp [List.countP_cons, hs, ih (some z) tail hrec]

end DICOM

namespace DICOM

/-! `SpacingBetweenSlices` is read but never used: replacing it leaves
every attribute the builder consumes unchanged. -/

lemma is_scout_setSpacing {sp : Option ℚ} {r : FileDataset} :
    is_scout (setSpacing sp r) = is_scout r := rfl

lemma setSpacing_sliceThickness {sp : Option ℚ} {r : FileDataset} :
    (setSpacing sp r).sliceThickness = r.sliceThickness := rfl

lemma setSpacing_imagePositionZ {sp : Option ℚ} {r : FileDataset} :
    (setSpacing sp r).imagePositionZ = r.imagePositionZ := rfl

lemma setSpacing_xRayTubeCurrent {sp : Option ℚ} {r : FileDataset} :
    (setSpacing sp r).xRayTubeCurrent = r.xRayTubeCurrent := rfl

lemma setSpacing_revolutionTime {sp : Option ℚ} {r : FileDataset} :
    (setSpacing sp r).revolutionTime = r.revolutionTime := rfl

lemma extractGo_map_setSpacing (g : FileDataset → Option ℚ) :
    ∀ (files : List FileDataset) (cur : Option ℚ),
      extractGo cur (files.map fun r => setSpacing (g r) r) = extractGo cur files := by
  intro files
  induction files with
  | nil => intro cur; rfl
  | cons ds rest ih =>
    intro cur
    by_cases hs : is_scout ds
    · rw [List.map_cons, extractGo_cons_scout (by rw [is_scout_setSpacing]; exact hs),
        extractGo_cons_scout hs]
      exact ih cur
    · simp only [List.map_cons, extractGo, is_scout_setSpacing, hs,
        setSpacing_sliceThickness, setSpacing_imagePositionZ, setSpacing_xRayTubeCurrent,
        setSpacing_revolutionTime, Bool.false_eq_true, if_false, ih]

/-! The final `sorted(data, key=lambda x: x[0])[::-1]`: `sortAsc` is a
permutation, is sorted ascending by position, and is stable (it keeps
the input order of the pairs at each fixed position). -/

lemma insertAsc_perm (x : ℚ × ℚ) (l : List (ℚ × ℚ)) : (insertAsc x l).Perm (x :: l) := by
  induction l with
  | nil => simp [insertAsc]
  | cons y ys ih =>
    by_cases h : x.1 ≤ y.1
    · simp [insertAsc, h]
    · simp only [insertAsc, h, if_false]
      exact (List.Perm.cons y ih).trans (List.Perm.swap x y ys)

lemma sortAsc_perm (l : List (ℚ × ℚ)) : (sortAsc l).Perm l := by
  induction l with
  | nil => exact List.Perm.refl _
  | cons x l ih => exact (insertAsc_perm x (sortAsc l)).trans (List.Perm.cons x ih)

lemma pairwise_insertAsc (x : ℚ × ℚ) :
    ∀ l : List (ℚ × ℚ), List.Pairwise (fun a b => a.1 ≤ b.1) l →
      List.Pairwise (fun a b => a.1 ≤ b.1) (insertAsc x l) := by
  intro l
  induction l with
  | nil => intro _; simp [insertAsc]
  | cons y ys ih =>
    intro hl
    rcases List.pairwise_cons.mp hl with ⟨hy, hys⟩
    by_cases h : x.1 ≤ y.1
    · simp only [insertAsc, h, if_true]
      refine List.Pairwise.cons ?_ hl
      intro b hb
      rcases List.mem_cons.mp hb with rfl | hb'
      · exact h
      · exact le_trans h (hy b hb')
    · simp only [insertAsc, h, if_false]
      refine List.Pairwise.cons ?_ (ih hys)
      intro b hb
      have hmem : b = x ∨ b ∈ ys := by
        simpa using (insertAsc_perm x ys).mem_iff.mp hb
      rcases hmem with rfl | hb'
      · exact le_of_not_le h
      · exact hy b hb'

lemma sortAsc_sorted (l : List (ℚ × ℚ)) :
    List.Pairwise (fun a b => a.1 ≤ b.1) (sortAsc l) := by
  induction l with
  | nil => simp [sortAsc]
  | cons x l ih => exact pairwise_insertAsc x (sortAsc l) ih

lemma filter_insertAsc (k : ℚ) (x : ℚ × ℚ) :
    ∀ l : List (ℚ × ℚ),
      (insertAsc x l).filter (fun y => decide (y.1 = k)) =
        if x.1 = k then x :: l.filter (fun y => decide (y.1 = k))
        else l.filter (fun y => decide (y.1 = k)) := by
  intro l
  induction l with
  | nil => by_cases hx : x.1 = k <;> simp [insertAsc, hx]
  | cons y ys ih =>
    by_cases h : x.1 ≤ y.1
    · simp only [insertAsc]
      rw [if_pos h]
      by_cases hx : x.1 = k <;> by_cases hy : y.1 = k <;>
        simp [List.filter_cons, hx, hy]
    · simp only [insertAsc]
      rw [if_neg h]
      by_cases hy : y.1 = k
      · have hx : ¬x.1 = k := fun hxk => h (le_of_eq (hxk.trans hy.symm))
        simp [List.filter_cons, hy, hx, ih]
      · simp [List.filter_cons, hy, ih]

lemma sortAsc_filter (k : ℚ) :
    ∀ l : List (ℚ × ℚ),
      (sortAsc l).filter (fun y => decide (y.1 = k)) =
        l.filter (fun y => decide (y.1 = k)) := by
  intro l
  induction l with
  | nil => rfl
  | cons x l ih =>
    have hstep : sortAsc (x :: l) = insertAsc x (sortAsc l) := rfl
    rw [hstep, filter_insertAsc]
    by_cases hx : x.1 = k <;> simp [hx, List.filter_cons, ih]

/-! Helper for the batch collector. -/

lemma collectRows_length :
    ∀ files : List DicomFile,
      (collectRows files).length =
        files.countP (fun f => is_dicom_file f.name && readOk f) := by
  intro files
  induction files with
  | nil => rfl
  | cons f fs ih =>
    by_cases hd : is_dicom_file f.name
    · rcases hc : f.content with e | d
      · simp [collectRows, hd, hc, List.countP_cons, readOk, ih]
      · simp [collectRows, hd, hc, List.countP_cons, readOk, ih]
    · simp [collectRows, hd, List.countP_cons, ih]

end DICOM

namespace DICOM

/-- C1: for a run of the Profile Builder over slice (non-scout) records
whose first record carries `ImagePositionPatient[2] = Z0`, the positions
accumulated before sorting are the cumulative sequence
`Z0, Z0 - t1, Z0 - t1 - t2, ...`, each subsequent slice subtracting its
own `SliceThickness`; and `SpacingBetweenSlices`, though read, does not
affect the accumulated data at all. -/
theorem extract_positions_cumulative :
    (∀ (r0 : FileDataset) (rest : List FileDataset) (Z0 : ℚ) (data : List (ℚ × ℚ)),
      (∀ r ∈ r0 :: rest, is_scout r = false) →
      r0.imagePositionZ = some Z0 →
      extract_dicom_data_unsorted (r0 :: rest) = .ok data →
      data.map Prod.fst = cumulPositions Z0 (rest.map fun r => r.sliceThickness.getD 0)) ∧
    (∀ (g : FileDataset → Option ℚ) (files : List FileDataset),
      extract_dicom_data_unsorted (files.map fun r => setSpacing (g r) r) =
        extract_dicom_data_unsorted files) := by
  constructor
  · intro r0 rest Z0 data hall hz0 h
    have hs : is_scout r0 = false := hall r0 (List.mem_cons_self _ _)
    obtain ⟨t, c, rt, z, tail, ht, hc, hrt, hz, hrec, rfl⟩ := extractGo_cons_slice_ok hs h
    have hz' : r0.imagePositionZ = some z := hz
    rw [hz0] at hz'
    have hzz : Z0 = z := Option.some.inj hz'
    subst hzz
    have hpos := extractGo_some_positions rest Z0 tail
      (fun r hr => hall r (List.mem_cons_of_mem _ hr)) hrec
    simpa using hpos.symm
  · intro g files
    exact extractGo_map_setSpacing g files none

/-- C1 witness: scenario-1 style run (first slice at 100, thicknesses 2)
and a spacing replacement that leaves the accumulated data unchanged. -/
theorem extract_positions_cumulative_witness :
    List.map Prod.fst [((100 : ℚ), 200 * (1 / 2 : ℚ)), (100 - 2, 200 * (1 / 2)),
        (100 - 2 - 2, 200 * (1 / 2))] =
      cumulPositions 100
        (List.map (fun r => r.sliceThickness.getD 0) [demoNextSlice, demoNextSlice]) ∧
    extract_dicom_data_unsorted
        (List.map (fun r => setSpacing ((fun _ => some 7) r) r)
          [demoFirstSlice, demoNextSlice]) =
      extract_dicom_data_unsorted [demoFirstSlice, demoNextSlice] :=
  ⟨extract_positions_cumulative.1 demoFirstSlice [demoNextSlice, demoNextSlice] 100
      [(100, 200 * (1 / 2)), (100 - 2, 200 * (1 / 2)), (100 - 2 - 2, 200 * (1 / 2))]
      (by decide) rfl rfl,
   extract_positions_cumulative.2 (fun _ => some 7) [demoFirstSlice, demoNextSlice]⟩

/-- C2 counterexample: two slices yield tied positions 5 with exposures
2 then 3; the returned list `[(5, 3), (5, 2)]` has the ties in
*reversed* input order, not the input order claimed (the spec-side
stable descending sort would keep `[(5, 2), (5, 3)]`). -/
theorem extract_tie_order_cex :
    extract_dicom_data_unsorted [demoTieA, demoTieB] = .ok [(5, 2), (5, 3)] ∧
    extract_dicom_data [demoTieA, demoTieB] = .ok [(5, 3), (5, 2)] ∧
    extract_dicom_data [demoTieA, demoTieB] ≠
      Except.ok (sortDescStable [(5, 2), (5, 3)]) := by
  refine ⟨?_, ?_, ?_⟩ <;>
    norm_num [extract_dicom_data, extract_dicom_data_unsorted, extractGo, is_scout, req,
      sortAsc, insertAsc, sortDescStable, insertDesc, Bind.bind, Except.bind,
      demoTieA, demoTieB, emptyDS]

/-- C2 (amended): the returned list is the accumulated pairs sorted
descending by position (a permutation, pairwise descending), but among
pairs with equal positions the relative input order is *reversed*, not
preserved: at each position `k` the retained pairs are the input ones in
reverse order. -/
theorem extract_sorted_desc_spec (files : List FileDataset) (data out : List (ℚ × ℚ))
    (hu : extract_dicom_data_unsorted files = .ok data)
    (ho : extract_dicom_data files = .ok out) :
    out.Perm data ∧
      List.Pairwise (fun a b : ℚ × ℚ => b.1 ≤ a.1) out ∧
      ∀ k : ℚ, out.filter (fun y => decide (y.1 = k)) =
        (data.filter (fun y => decide (y.1 = k))).reverse := by
  have h2 : extract_dicom_data files = .ok ((sortAsc data).reverse) :=
    extract_dicom_data_eq hu
  rw [ho] at h2
  obtain rfl : out = (sortAsc data).reverse := Except.ok.inj h2
  refine ⟨(List.reverse_perm _).trans (sortAsc_perm data), ?_, ?_⟩
  · rw [List.pairwise_reverse]
    exact sortAsc_sorted data
  · intro k
    rw [List.filter_reverse, sortAsc_filter]

/-- C2 witness: the amended statement instantiated on the tied run. -/
theorem extract_sorted_desc_spec_witness :
    ((sortAsc [((5 : ℚ), 2 * 1), (5 - 0, 3 * 1)]).reverse).Perm
        [((5 : ℚ), 2 * 1), (5 - 0, 3 * 1)] ∧
      List.Pairwise (fun a b : ℚ × ℚ => b.1 ≤ a.1)
        ((sortAsc [((5 : ℚ), 2 * 1), (5 - 0, 3 * 1)]).reverse) ∧
      ((sortAsc [((5 : ℚ), 2 * 1), (5 - 0, 3 * 1)]).reverse).filter
          (fun y => decide (y.1 = 5)) =
        (([((5 : ℚ), 2 * 1), (5 - 0, 3 * 1)]).filter (fun y => decide (y.1 = 5))).reverse :=
  ⟨(extract_sorted_desc_spec [demoTieA, demoTieB] [(5, 2 * 1), (5 - 0, 3 * 1)]
      ((sortAsc [(5, 2 * 1), (5 - 0, 3 * 1)]).reverse) rfl rfl).1,
   (extract_sorted_desc_spec [demoTieA, demoTieB] [(5, 2 * 1), (5 - 0, 3 * 1)]
      ((sortAsc [(5, 2 * 1), (5 - 0, 3 * 1)]).reverse) rfl rfl).2.1,
   (extract_sorted_desc_spec [demoTieA, demoTieB] [(5, 2 * 1), (5 - 0, 3 * 1)]
      ((sortAsc [(5, 2 * 1), (5 - 0, 3 * 1)]).reverse) rfl rfl).2.2 5⟩

/-- C3: for a scout record with thickness `L`, position `z` and nonzero
rows `r`, the Reference Alignment Calculator returns exactly
`(z, z - L, L / r)`. -/
theorem scout_positions_formula (ds : FileDataset) (L z : ℚ) (r : ℕ)
    (hL : ds.sliceThickness = some L) (hz : ds.imagePositionZ = some z)
    (hr : ds.rows = some r) (hr0 : r ≠ 0) :
    calculate_scout_positions ds = .ok (z, z - L, L / (r : ℚ)) := by
  simp [calculate_scout_positions, req, hL, hz, hr, hr0, Bind.bind, Except.bind]

/-- C3 witness: the spec's scenario 2 (400, 50, 200 rows) gives
`(50, -350, 2)`. -/
theorem scout_positions_formula_witness :
    calculate_scout_positions demoScout = .ok (50, 50 - 400, 400 / ((200 : ℕ) : ℚ)) ∧
    (50 : ℚ) - 400 = -350 ∧ (400 : ℚ) / ((200 : ℕ) : ℚ) = 2 :=
  ⟨scout_positions_formula demoScout 400 50 200 rfl rfl rfl (by decide),
   by norm_num, by norm_num⟩

/-- C4: every exposure value accumulated by the Profile Builder is
exactly `XRayTubeCurrent * RevolutionTime` of its slice, untransformed:
the second components of the data are the products over the non-scout
records in order. -/
theorem exposure_eq_product (files : List FileDataset) (data : List (ℚ × ℚ))
    (h : extract_dicom_data_unsorted files = .ok data) :
    data.map Prod.snd = (files.filter fun r => !is_scout r).map
      (fun r => r.xRayTubeCurrent.getD 0 * r.revolutionTime.getD 0) :=
  extractGo_ok_snd files none data h

/-- C4 witness: one slice (200 mA, 0.5 s) next to a skipped scout. -/
theorem exposure_eq_product_witness :
    List.map Prod.snd [((100 : ℚ), 200 * (1 / 2 : ℚ))] =
      ([demoFirstSlice, demoScout].filter fun r => !is_scout r).map
        (fun r => r.xRayTubeCurrent.getD 0 * r.revolutionTime.getD 0) :=
  exposure_eq_product [demoFirstSlice, demoScout] [(100, 200 * (1 / 2))] rfl

/-- C5 counterexample: with `Rows = 0` the calculator fails with the
division-by-zero error, which is not a `MissingFieldError`. -/
theorem scout_rows_zero_cex :
    calculate_scout_positions demoScoutRows0 = .error .zeroDivision ∧
    isMissingField (calculate_scout_positions demoScoutRows0) = false :=
  ⟨rfl, rfl⟩

/-- C5 (amended): the calculator fails whenever `Rows` is zero or
absent, but with a `ZeroDivisionError` when `Rows = 0` and with a
`MissingFieldError` only when `Rows` is absent. -/
theorem scout_rows_failure_modes (ds : FileDataset) (L z : ℚ)
    (hL : ds.sliceThickness = some L) (hz : ds.imagePositionZ = some z) :
    (ds.rows = some 0 → calculate_scout_positions ds = .error .zeroDivision) ∧
    (ds.rows = none → calculate_scout_positions ds = .error (.missingField "Rows")) := by
  constructor
  · intro hr
    simp [calculate_scout_positions, req, hL, hz, hr, Bind.bind, Except.bind]
  · intro hr
    simp [calculate_scout_positions, req, hL, hz, hr, Bind.bind, Except.bind]

/-- C5 witness: both failure modes on the scenario-2 scout. -/
theorem scout_rows_failure_modes_witness :
    calculate_scout_positions demoScoutRows0 = .error .zeroDivision ∧
    calculate_scout_positions demoScoutNoRows = .error (.missingField "Rows") :=
  ⟨(scout_rows_failure_modes demoScoutRows0 400 50 rfl rfl).1 rfl,
   (scout_rows_failure_modes demoScoutNoRows 400 50 rfl rfl).2 rfl⟩

end DICOM

namespace DICOM

/-- C6: if any non-scout record lacks `SliceThickness`, the whole
Profile Builder run fails with a `MissingFieldError` (no partial profile
is ever returned): the result is an `AttributeError`-style error, never
an `ok`. -/
theorem missing_thickness_fatal (files : List FileDataset)
    (h : ∃ r ∈ files, is_scout r = false ∧ r.sliceThickness = none) :
    ∃ f, extract_dicom_data files = Except.error (DicomError.missingField f) := by
  rcases h with ⟨r, hr, hscout, hthick⟩
  rcases hgo : extractGo none files with e | data
  · obtain ⟨f, rfl⟩ := extractGo_error_missingField files none e hgo
    exact ⟨f, extract_dicom_data_error hgo⟩
  · obtain ⟨t, ht⟩ := extractGo_ok_thickness files none data hgo r hr hscout
    rw [hthick] at ht
    cases ht

/-- C6 witness: a two-slice run whose second slice lacks
`SliceThickness` ends in a `MissingFieldError`. -/
theorem missing_thickness_fatal_witness :
    isMissingField (extract_dicom_data [demoTieA, demoNoThickness]) = true := by
  obtain ⟨f, hf⟩ := missing_thickness_fatal [demoTieA, demoNoThickness]
    ⟨demoNoThickness, by decide⟩
  rw [hf]
  rfl

/-- C7: the Batch Collector signals "no valid records" (produces no
output file) exactly when no `.dcm`-named file reads successfully, and
otherwise writes one data row per file that was read without a
`ReadError`. -/
theorem batch_collector_spec (files : List DicomFile) :
    (extract_dicom_info files = none ↔
      files.countP (fun f => is_dicom_file f.name && readOk f) = 0) ∧
    ∀ rows, extract_dicom_info files = some rows →
      rows.length = files.countP (fun f => is_dicom_file f.name && readOk f) := by
  have hlen := collectRows_length files
  constructor
  · rw [← hlen]
    rcases hcr : collectRows files with _ | ⟨a, l⟩ <;> simp [extract_dicom_info, hcr]
  · intro rows hrow
    rw [← hlen]
    rcases hcr : collectRows files with _ | ⟨a, l⟩
    · simp [extract_dicom_info, hcr] at hrow
    · simp [extract_dicom_info, hcr] at hrow
      simp [← hrow]

/-- C7 witness: one corrupt `.dcm`, one good `.dcm` and one filtered
`.txt` yield an output of exactly one row. -/
theorem batch_collector_spec_witness :
    extract_dicom_info [demoFileBad, demoFileOk, demoFileTxt] ≠ none ∧
    ([mkRow ⟨some "P1", none, none, none, none, none, none, none⟩]).length =
      [demoFileBad, demoFileOk, demoFileTxt].countP
        (fun f => is_dicom_file f.name && readOk f) :=
  ⟨fun h => absurd ((batch_collector_spec [demoFileBad, demoFileOk, demoFileTxt]).1.mp h)
      (by decide),
   (batch_collector_spec [demoFileBad, demoFileOk, demoFileTxt]).2
     [mkRow ⟨some "P1", none, none, none, none, none, none, none⟩] rfl⟩

/-- C8: classification is a pure function of `SeriesDescription`: an
absent description is classified non-reference without raising, and two
records whose descriptions agree case-insensitively are classified the
same way. -/
theorem classification_pure :
    (∀ ds : FileDataset, ds.seriesDescription = none → is_scout ds = false) ∧
    (∀ (d1 d2 : FileDataset) (s1 s2 : String),
      d1.seriesDescription = some s1 → d2.seriesDescription = some s2 →
      lowerStr s1 = lowerStr s2 → is_scout d1 = is_scout d2) := by
  constructor
  · intro ds h
    simp [is_scout, h]
  · intro d1 d2 s1 s2 h1 h2 hl
    simp [is_scout, h1, h2, hl]

/-- C8 witness: the empty record is non-reference, and two descriptions
differing only in case classify identically. -/
theorem classification_pure_witness :
    is_scout emptyDS = false ∧ is_scout demoScout = is_scout demoScoutOtherCase :=
  ⟨classification_pure.1 emptyDS rfl,
   classification_pure.2 demoScout demoScoutOtherCase "Scout FACE ap" "sCOUT face AP"
     rfl rfl (by decide)⟩

/-- C9 counterexample: for the scenario-2 scout with 100 image columns
and column pixel spacing 1, the overlay's vertical extent is
`cols * PixelSpacing[1] = 100`, not `rows * rowSpacing = 200 * 2 = 400`
as claimed. -/
theorem plot_extent_cex :
    calculate_scout_positions demoScout = .ok (50, -350, 2) ∧
    plot_scout_extent 100 demoScout = .ok (50, -350, 0, 100) ∧
    (100 : ℚ) ≠ 200 * 2 := by
  refine ⟨?_, ?_, ?_⟩ <;>
    norm_num [calculate_scout_positions, plot_scout_extent, req, Bind.bind, Except.bind,
      demoScout, emptyDS]

/-- C9 (amended): the overlay axis spans `[zStart, zEnd]` horizontally,
with `zStart`, `zEnd` taken from the Reference Alignment Calculator, and
`[0, cols * pixelSpacingCol]` vertically (image columns times
`PixelSpacing[1]`), not `[0, rows * rowSpacing]`. -/
theorem plot_extent_geometry (cols : ℕ) (ds : FileDataset) (zs ze rsp px : ℚ)
    (hg : calculate_scout_positions ds = .ok (zs, ze, rsp))
    (hp : ds.pixelSpacingCol = some px) :
    plot_scout_extent cols ds = .ok (zs, ze, 0, (cols : ℚ) * px) := by
  simp [plot_scout_extent, hg, req, hp, Bind.bind, Except.bind]

/-- C9 witness: the amended geometry on the scenario-2 scout. -/
theorem plot_extent_geometry_witness :
    plot_scout_extent 100 demoScout = .ok (50, 50 - 400, 0, (100 : ℚ) * 1) :=
  plot_extent_geometry 100 demoScout 50 (50 - 400) (400 / ((200 : ℕ) : ℚ)) 1 rfl rfl

/-- C10: an all-scout (or empty) input yields the empty profile without
error, and in general a successful profile has exactly one entry per
non-scout input record. -/
theorem profile_length_spec (files : List FileDataset) :
    ((∀ r ∈ files, is_scout r = true) → extract_dicom_data files = .ok []) ∧
    ∀ l, extract_dicom_data files = .ok l →
      l.length = files.countP (fun r => !is_scout r) := by
  constructor
  · intro hall
    have h := extract_dicom_data_eq (extractGo_all_scout files none hall)
    simpa [sortAsc] using h
  · intro l hl
    rcases hgo : extractGo none files with e | data
    · rw [extract_dicom_data_error hgo] at hl
      cases hl
    · have h2 := extract_dicom_data_eq hgo
      rw [hl] at h2
      obtain rfl : l = (sortAsc data).reverse := Except.ok.inj h2
      rw [List.length_reverse, (sortAsc_perm data).length_eq]
      exact extractGo_ok_length files none data hgo

/-- C10 witness: a lone scout gives the empty profile; a lone slice
gives a length-1 profile. -/
theorem profile_length_spec_witness :
    extract_dicom_data [demoScout] = .ok [] ∧
    ([((100 : ℚ), 200 * (1 / 2 : ℚ))] : List (ℚ × ℚ)).length =
      [demoFirstSlice].countP (fun r => !is_scout r) :=
  ⟨(profile_length_spec [demoScout]).1 (by decide),
   (profile_length_spec [demoFirstSlice]).2 [(100, 200 * (1 / 2))] rfl⟩

end DICOM
